import Mathlib

/-!
Shallow embedding of the AgentText wrapper scripts
(`src/AgentText/Scripts/*.py`): nine command-line scripts that parse
arguments, construct an external `AgentText` client, perform one delegated
call, and print a JSON envelope, exiting 0 on success and 1 on any handled
failure.  Values returned by or raised from the external `agenttext`
package are treated as opaque inputs (the environment); everything the
scripts themselves do with them is translated from the source.
-/

namespace AgentTextScripts

/-- Python values as the scripts observe them: the scripts only ever
distinguish dict / list / everything else (`isinstance` checks), take
lengths of lists, and stringify.  JSON-serialisable values are modelled by
this tree; an opaque non-JSON object returned by the client is represented
by the scalar cases through its observable behaviour. -/
inductive Json where
  | null : Json
  | bool : Bool → Json
  | num : Int → Json
  | str : String → Json
  | arr : List Json → Json
  | obj : List (String × Json) → Json
deriving Repr

/-- Field lookup in a printed JSON object (first binding wins, as in a
Python dict literal with distinct keys). -/
def Json.getField : Json → String → Option Json
  | .obj kvs, k => kvs.lookup k
  | _, _ => none

/-- `isinstance(v, list)`. -/
def Json.isList : Json → Bool
  | .arr _ => true
  | _ => false

/-- `isinstance(v, dict)`. -/
def Json.isDict : Json → Bool
  | .obj _ => true
  | _ => false

/-- `len(v)` for the list case; the scripts only call `len` after an
`isinstance(v, list)` check. -/
def Json.listLen : Json → Int
  | .arr xs => (xs.length : Int)
  | _ => 0

mutual
/-- Python `repr` of a modelled value (used for elements inside the
rendering of a list or dict). -/
def Json.pyRepr : Json → String
  | .null => "None"
  | .bool true => "True"
  | .bool false => "False"
  | .num n => toString n
  | .str s => "\x27" ++ s ++ "\x27"
  | .arr xs => "[" ++ Json.pyReprList xs ++ "]"
  | .obj kvs => "\x7b" ++ Json.pyReprObj kvs ++ "\x7d"

/-- Comma-separated renderings of list elements. -/
def Json.pyReprList : List Json → String
  | [] => ""
  | [x] => Json.pyRepr x
  | x :: y :: rest => Json.pyRepr x ++ ", " ++ Json.pyReprList (y :: rest)

/-- Comma-separated renderings of dict entries. -/
def Json.pyReprObj : List (String × Json) → String
  | [] => ""
  | [(k, v)] => "\x27" ++ k ++ "\x27: " ++ Json.pyRepr v
  | (k, v) :: e :: rest =>
      "\x27" ++ k ++ "\x27: " ++ Json.pyRepr v ++ ", " ++ Json.pyReprObj (e :: rest)
end

/-- Python `str(v)`: a string renders as itself, anything else as its
`repr`. -/
def Json.pyStr : Json → String
  | .str s => s
  | v => Json.pyRepr v

/-! ### Substring containment

The spec talks about error strings "containing" the configured base URL or
a file path; we model containment of one string in another directly over
the character lists. -/

/-- `startsWithChars hay needle`: `needle` is an initial segment of
`hay`. -/
def startsWithChars : List Char → List Char → Bool
  | _, [] => true
  | [], _ :: _ => false
  | a :: as, b :: bs => a == b && startsWithChars as bs

/-- `hasSub hay needle`: `needle` occurs contiguously inside `hay`. -/
def hasSub : List Char → List Char → Bool
  | [], n => n.isEmpty
  | a :: as, n => startsWithChars (a :: as) n || hasSub as n

/-- String containment: the second string occurs contiguously in the
first. -/
def strContains (hay needle : String) : Bool :=
  hasSub hay.data needle.data

theorem startsWithChars_refl (l : List Char) : startsWithChars l l = true := by
  induction l with
  | nil => rfl
  | cons a as ih => simp [startsWithChars, ih]

theorem startsWithChars_append (l t : List Char) :
    startsWithChars (l ++ t) l = true := by
  induction l with
  | nil => cases t <;> rfl
  | cons a as ih => simp [startsWithChars, ih]

theorem hasSub_of_startsWith {l n : List Char}
    (h : startsWithChars l n = true) : hasSub l n = true := by
  cases l with
  | nil => cases n with
    | nil => rfl
    | cons b bs => exact absurd h (by simp [startsWithChars])
  | cons a as => simp [hasSub, h]

theorem hasSub_append_left (p l : List Char) (h : hasSub l n = true) :
    hasSub (p ++ l) n = true := by
  induction p with
  | nil => simpa using h
  | cons a as ih => simp [hasSub, ih]

/-- Characters of a concatenation. -/
theorem String.data_app (s t : String) : (s ++ t).data = s.data ++ t.data := by
  cases s; cases t; rfl

/-- A string contains any suffix glued on by `++`. -/
theorem strContains_append_right (p u : String) :
    strContains (p ++ u) u = true := by
  unfold strContains
  rw [String.data_app]
  exact hasSub_append_left p.data u.data
    (hasSub_of_startsWith (by simpa using startsWithChars_append u.data []))

/-- A string contains any middle piece glued in by `++`. -/
theorem strContains_append_mid (p u q : String) :
    strContains (p ++ u ++ q) u = true := by
  unfold strContains
  rw [String.data_app, String.data_app, List.append_assoc]
  exact hasSub_append_left p.data (u.data ++ q.data)
    (hasSub_of_startsWith (startsWithChars_append u.data q.data))

/-! ### Execution model

Each script is a function from its parsed arguments and an *environment*
(what the external `agenttext` package does when called) to an `Outcome`:
the JSON documents printed to stdout, the process exit code, whether and
how the client object was constructed, and which client methods were
invoked with which arguments. -/

/-- Exception classes the scripts distinguish: `AgentTextConnectionException`,
`AgentTextAPIException`, and any other `Exception`.  Each carries its
`str(e)` message. -/
inductive PyExc where
  | conn : String → PyExc
  | api : String → PyExc
  | other : String → PyExc
deriving Repr, DecidableEq

/-- `str(e)` of an exception. -/
def PyExc.msg : PyExc → String
  | .conn m => m
  | .api m => m
  | .other m => m

/-- Outcome of the one delegated client call. -/
inductive ClientResult where
  | ok : Json → ClientResult
  | exn : PyExc → ClientResult
deriving Repr

/-- Environment for a script whose `try` block constructs the client and
performs one call: either `AgentText(...)` itself raises, or the client is
built and the delegated call produces a `ClientResult`. -/
inductive CallEnv where
  | ctorRaises : PyExc → CallEnv
  | call : ClientResult → CallEnv
deriving Repr

/-- A client method invocation, with the arguments the script passed. -/
inductive ClientCall where
  | send : String → String → ClientCall
  | sendFiles : String → List String → String → ClientCall
  | sendFile : String → String → Option String → ClientCall
  | sendBatch : Json → ClientCall
  | listMessages : Int → Option String → Bool → ClientCall
  | getUnread : ClientCall
  | listChats : Int → Option String → ClientCall
  | watcherStart : Option String → ClientCall
  | watcherStop : ClientCall
  | watcherStatus : ClientCall
  | watchCallbackStart : ClientCall
deriving Repr

/-- How `AgentText(...)` was invoked: the `base_url` argument (if passed)
and the `timeout` argument (if passed). -/
structure CtorArgs where
  baseUrl : Option String
  timeout : Option Nat
deriving Repr, DecidableEq

/-- Observable outcome of one script invocation. -/
structure Outcome where
  printed : List Json
  exitCode : Nat
  ctor : Option CtorArgs
  calls : List ClientCall
deriving Repr

/-- `{"success": false, "error": e}`. -/
def failEnvelope (e : String) : Json :=
  .obj [("success", .bool false), ("error", .str e)]

/-- The default of every `--base-url` flag in the repository. -/
def defaultBaseUrl : String := "http://localhost:3000"

/-- Error string printed on `AgentTextConnectionException`, shared verbatim
by the seven argparse-based scripts. -/
def connErrMsg (m u : String) : String :=
  "Connection error: " ++ m ++ ". Make sure the API server is running on " ++ u

/-- Failure envelope chosen by the three specific handlers of the
argparse-based scripts (connection / API / catch-all). -/
def stdErrEnvelope (u : String) : PyExc → Json
  | .conn m => failEnvelope (connErrMsg m u)
  | .api m => failEnvelope ("API error: " ++ m)
  | .other m => failEnvelope m

/-- Failure envelope of a bare `except Exception` handler
(`simple_test.py`, `watch_messages.py`): just `str(e)`. -/
def genErrEnvelope (e : PyExc) : Json :=
  failEnvelope e.msg

/-- Shared shape of the `try` block of the one-call scripts: construct the
client, perform `call`, print the per-script success envelope(s) or the
per-script failure envelope, exit 0 or 1. -/
def clientPhase (ctorArgs : CtorArgs) (env : CallEnv) (call : ClientCall)
    (onOk : Json → Json) (onErr : PyExc → Json) : Outcome :=
  match env with
  | .ctorRaises e => ⟨[onErr e], 1, none, []⟩
  | .call (.ok v) => ⟨[onOk v], 0, some ctorArgs, [call]⟩
  | .call (.exn e) => ⟨[onErr e], 1, some ctorArgs, [call]⟩

/-- Import-guard message of the seven scripts that point at the editable
package path. -/
def pkgMissingStd : String :=
  "AgentText package not installed. Run: pip3 install -e /path/to/agenttext_package"

/-- Import-guard message of `watch_messages.py`. -/
def pkgMissingWatch : String :=
  "AgentText package not installed. Run: pip3 install agenttext"

/-- Outcome of a failed `from agenttext import ...`: print the guard
envelope and exit 1, before any argument parsing or client activity. -/
def pkgFailOutcome (m : String) : Outcome :=
  ⟨[failEnvelope m], 1, none, []⟩

/-- Top of every script: if the import succeeds run `main`, otherwise the
guard fires. -/
def withPkg (pkgOk : Bool) (guardMsg : String) (mainOutcome : Outcome) : Outcome :=
  if pkgOk then mainOutcome else pkgFailOutcome guardMsg

/-- Truthiness of an optional-string argument (`if args.x:` with
`default=None`): `None` and `""` are falsy. -/
def pyTruthy : Option String → Bool
  | none => false
  | some s => !s.isEmpty

/-- Python split on comma over the character list: split at every comma,
so `""` yields `[""]` and separators at the ends yield empty pieces. -/
def splitCommaChars : List Char → List (List Char)
  | [] => [[]]
  | c :: cs =>
      if c == ',' then [] :: splitCommaChars cs
      else
        match splitCommaChars cs with
        | [] => [[c]]
        | p :: ps => (c :: p) :: ps

/-- Python `s.strip()`: drop whitespace from both ends. -/
def stripChars (l : List Char) : List Char :=
  ((l.dropWhile Char.isWhitespace).reverse.dropWhile Char.isWhitespace).reverse

/-- Split on commas, then strip each piece (the list comprehension in send_message.py line 36). -/
def splitAndStrip (s : String) : List String :=
  (splitCommaChars s.data).map (fun p => String.mk (stripChars p))

/-! ### batch_send.py -/

/-- Parsed arguments of `batch_send.py`. -/
structure BatchSendArgs where
  jsonFile : String
  baseUrl : String
deriving Repr

/-- Result of `open(args.json_file)` + `json.load` inside the `try` block:
the file may be missing (`FileNotFoundError`), unparsable
(`json.JSONDecodeError`), or parse to a JSON value. -/
inductive FileRead where
  | notFound : FileRead
  | badJson : String → FileRead
  | parsed : Json → FileRead
deriving Repr

/-- `batch_send.py main`: read the file, require a JSON array, then send
the batch and report `Sent {len(messages)} messages` plus the results. -/
def batchSendMain (a : BatchSendArgs) (fileContents : FileRead) (env : CallEnv) : Outcome :=
  match fileContents with
  | .notFound => ⟨[failEnvelope ("File not found: " ++ a.jsonFile)], 1, none, []⟩
  | .badJson m => ⟨[failEnvelope ("Invalid JSON: " ++ m)], 1, none, []⟩
  | .parsed (.arr msgs) =>
      clientPhase ⟨some a.baseUrl, some 30⟩ env (.sendBatch (.arr msgs))
        (fun results => .obj [("success", .bool true),
          ("message", .str ("Sent " ++ toString msgs.length ++ " messages")),
          ("results", if results.isList then results else .arr [])])
        (stdErrEnvelope a.baseUrl)
  | .parsed _ =>
      ⟨[failEnvelope "JSON file must contain an array of messages"], 1, none, []⟩

/-! ### get_messages.py -/

/-- Parsed arguments of `get_messages.py`. -/
structure GetMessagesArgs where
  limit : Int
  sender : Option String
  unreadOnly : Bool
  baseUrl : String
deriving Repr

/-- `get_messages.py main`: list messages with the assembled filters and
report them with a `count`. -/
def getMessagesMain (a : GetMessagesArgs) (env : CallEnv) : Outcome :=
  let senderFilter := if pyTruthy a.sender then a.sender else none
  clientPhase ⟨some a.baseUrl, some 30⟩ env
    (.listMessages a.limit senderFilter a.unreadOnly)
    (fun messages => .obj [("success", .bool true),
      ("messages", if messages.isList || messages.isDict then messages else .arr []),
      ("count", if messages.isList then .num messages.listLen else .num 0)])
    (stdErrEnvelope a.baseUrl)

/-! ### get_unread.py -/

/-- Parsed arguments of `get_unread.py`. -/
structure GetUnreadArgs where
  baseUrl : String
deriving Repr

/-- `get_unread.py main`: fetch unread messages and report them raw. -/
def getUnreadMain (a : GetUnreadArgs) (env : CallEnv) : Outcome :=
  clientPhase ⟨some a.baseUrl, some 30⟩ env .getUnread
    (fun unread => .obj [("success", .bool true), ("unread", unread)])
    (stdErrEnvelope a.baseUrl)

/-! ### list_chats.py -/

/-- Parsed arguments of `list_chats.py`. -/
structure ListChatsArgs where
  limit : Int
  type : Option String
  baseUrl : String
deriving Repr

/-- `list_chats.py main`: list chats with the assembled filters, replacing
a non-list response by `[]` and reporting a `count`. -/
def listChatsMain (a : ListChatsArgs) (env : CallEnv) : Outcome :=
  let typeFilter := if pyTruthy a.type then a.type else none
  clientPhase ⟨some a.baseUrl, some 30⟩ env (.listChats a.limit typeFilter)
    (fun chats => .obj [("success", .bool true),
      ("chats", if chats.isList then chats else .arr []),
      ("count", if chats.isList then .num chats.listLen else .num 0)])
    (stdErrEnvelope a.baseUrl)

/-! ### send_file.py -/

/-- Parsed arguments of `send_file.py`. -/
structure SendFileArgs where
  recipient : String
  filePath : String
  text : Option String
  baseUrl : String
deriving Repr

/-- `send_file.py main`: validate `os.path.exists(args.file_path)` before
the `try` block, then send the file. -/
def sendFileMain (a : SendFileArgs) (fileExists : Bool) (env : CallEnv) : Outcome :=
  if fileExists then
    clientPhase ⟨some a.baseUrl, some 30⟩ env
      (.sendFile a.recipient a.filePath a.text)
      (fun result => .obj [("success", .bool true),
        ("message", .str ("File sent to " ++ a.recipient)),
        ("file", .str a.filePath),
        ("result", if result.isDict then result else .str result.pyStr)])
      (stdErrEnvelope a.baseUrl)
  else
    ⟨[failEnvelope ("File not found: " ++ a.filePath)], 1, none, []⟩

/-! ### send_message.py -/

/-- Parsed arguments of `send_message.py`. -/
structure SendMessageArgs where
  recipient : String
  message : String
  files : Option String
  baseUrl : String
deriving Repr

/-- `send_message.py main`: if `--files` is truthy, split it on commas,
strip each piece and send with attachments; otherwise send plain text. -/
def sendMessageMain (a : SendMessageArgs) (env : CallEnv) : Outcome :=
  let call := if pyTruthy a.files then
      ClientCall.sendFiles a.recipient (splitAndStrip (a.files.getD "")) a.message
    else
      ClientCall.send a.recipient a.message
  clientPhase ⟨some a.baseUrl, some 30⟩ env call
    (fun result => .obj [("success", .bool true),
      ("message", .str ("Message sent to " ++ a.recipient)),
      ("result", if result.isDict then result else .str result.pyStr)])
    (stdErrEnvelope a.baseUrl)

/-! ### simple_test.py -/

/-- `simple_test.py main`: no argument parser at all; construct
`AgentText()` with no arguments, send a hardcoded message, and map any
exception to `str(e)`. -/
def simpleTestMain (env : CallEnv) : Outcome :=
  clientPhase ⟨none, none⟩ env (.send "+9255776728" "Hello!")
    (fun result => .obj [("success", .bool true),
      ("message", .str "Test message sent successfully!"),
      ("result", if result.isDict then result else .str result.pyStr)])
    genErrEnvelope

/-! ### watcher.py -/

/-- The `action` positional of `watcher.py`
(choices start, stop, status). -/
inductive WatcherAction where
  | start : WatcherAction
  | stop : WatcherAction
  | status : WatcherAction
deriving Repr, DecidableEq

/-- Parsed arguments of `watcher.py`. -/
structure WatcherArgs where
  action : WatcherAction
  webhookUrl : Option String
  baseUrl : String
deriving Repr

/-- `watcher.py main`: dispatch on the action; `start` passes an optional
webhook dict, `status` reports the result under `status`. -/
def watcherMain (a : WatcherArgs) (env : CallEnv) : Outcome :=
  match a.action with
  | .start =>
      let webhook := if pyTruthy a.webhookUrl then a.webhookUrl else none
      clientPhase ⟨some a.baseUrl, some 30⟩ env (.watcherStart webhook)
        (fun result => .obj [("success", .bool true), ("action", .str "start"),
          ("message", .str "Watcher started"),
          ("result", if result.isDict then result else .str result.pyStr)])
        (stdErrEnvelope a.baseUrl)
  | .stop =>
      clientPhase ⟨some a.baseUrl, some 30⟩ env .watcherStop
        (fun result => .obj [("success", .bool true), ("action", .str "stop"),
          ("message", .str "Watcher stopped"),
          ("result", if result.isDict then result else .str result.pyStr)])
        (stdErrEnvelope a.baseUrl)
  | .status =>
      clientPhase ⟨some a.baseUrl, some 30⟩ env .watcherStatus
        (fun result => .obj [("success", .bool true), ("action", .str "status"),
          ("status", if result.isDict then result else .str result.pyStr)])
        (stdErrEnvelope a.baseUrl)

/-! ### watch_messages.py -/

/-- How the legacy watch loop terminates: an interrupt signal
(`KeyboardInterrupt`) or an exception. -/
inductive WatchEnd where
  | interrupt : WatchEnd
  | exn : PyExc → WatchEnd
deriving Repr

/-- Environment of `watch_messages.py`: `AgentText(...)` may raise,
`client.watcher.start(callback=...)` may raise, or the loop runs, the
callback fires once per delivered message, and the loop eventually ends. -/
inductive WatchEnv where
  | ctorRaises : PyExc → WatchEnv
  | startRaises : PyExc → WatchEnv
  | running : List Json → WatchEnd → WatchEnv
deriving Repr

/-- `{"success": true, "message": "Starting message watcher..."}`,
printed after client construction and before the watch starts. -/
def startingEnvelope : Json :=
  .obj [("success", .bool true), ("message", .str "Starting message watcher...")]

/-- `{"success": true, "message": "Watcher stopped"}`, printed by the
`KeyboardInterrupt` handler. -/
def watcherStoppedEnvelope : Json :=
  .obj [("success", .bool true), ("message", .str "Watcher stopped")]

/-- One line printed by the `on_message` callback per delivered message. -/
def eventEnvelope (m : Json) : Json :=
  .obj [("event", .str "message"), ("data", if m.isDict then m else .str m.pyStr)]

/-- `watch_messages.py main`: hardcoded base URL, a starting line, the
callback subscription, an unbounded sleep loop; `KeyboardInterrupt` prints
a success line and falls off `main` (exit 0), any other exception prints
`str(e)` and exits 1. -/
def watchMessagesMain : WatchEnv → Outcome
  | .ctorRaises e => ⟨[genErrEnvelope e], 1, none, []⟩
  | .startRaises e =>
      ⟨[startingEnvelope, genErrEnvelope e], 1,
        some ⟨some defaultBaseUrl, none⟩, [.watchCallbackStart]⟩
  | .running events theEnd =>
      let head := startingEnvelope :: events.map eventEnvelope
      match theEnd with
      | .interrupt =>
          ⟨head ++ [watcherStoppedEnvelope], 0,
            some ⟨some defaultBaseUrl, none⟩, [.watchCallbackStart]⟩
      | .exn e =>
          ⟨head ++ [genErrEnvelope e], 1,
            some ⟨some defaultBaseUrl, none⟩, [.watchCallbackStart]⟩

/-! ### Whole-script runs (import guard included) -/

/-- `batch_send.py` from process start. -/
def batchSendRun (pkgOk : Bool) (a : BatchSendArgs) (fileContents : FileRead)
    (env : CallEnv) : Outcome :=
  withPkg pkgOk pkgMissingStd (batchSendMain a fileContents env)

/-- `get_messages.py` from process start. -/
def getMessagesRun (pkgOk : Bool) (a : GetMessagesArgs) (env : CallEnv) : Outcome :=
  withPkg pkgOk pkgMissingStd (getMessagesMain a env)

/-- `get_unread.py` from process start. -/
def getUnreadRun (pkgOk : Bool) (a : GetUnreadArgs) (env : CallEnv) : Outcome :=
  withPkg pkgOk pkgMissingStd (getUnreadMain a env)

/-- `list_chats.py` from process start. -/
def listChatsRun (pkgOk : Bool) (a : ListChatsArgs) (env : CallEnv) : Outcome :=
  withPkg pkgOk pkgMissingStd (listChatsMain a env)

/-- `send_file.py` from process start. -/
def sendFileRun (pkgOk : Bool) (a : SendFileArgs) (fileExists : Bool)
    (env : CallEnv) : Outcome :=
  withPkg pkgOk pkgMissingStd (sendFileMain a fileExists env)

/-- `send_message.py` from process start. -/
def sendMessageRun (pkgOk : Bool) (a : SendMessageArgs) (env : CallEnv) : Outcome :=
  withPkg pkgOk pkgMissingStd (sendMessageMain a env)

/-- `simple_test.py` from process start. -/
def simpleTestRun (pkgOk : Bool) (env : CallEnv) : Outcome :=
  withPkg pkgOk pkgMissingStd (simpleTestMain env)

/-- `watcher.py` from process start. -/
def watcherRun (pkgOk : Bool) (a : WatcherArgs) (env : CallEnv) : Outcome :=
  withPkg pkgOk pkgMissingStd (watcherMain a env)

/-- `watch_messages.py` from process start (its guard message differs). -/
def watchMessagesRun (pkgOk : Bool) (env : WatchEnv) : Outcome :=
  withPkg pkgOk pkgMissingWatch (watchMessagesMain env)

/-! ### Argument schemas

One record per `add_argument` call, with the effective default value and
`choices` restriction; positionals (required, no default) carry `none`.
`simple_test.py` and `watch_messages.py` build no argument parser at all,
so their schemas are empty. -/

/-- One `add_argument` declaration. -/
structure ArgSpec where
  name : String
  defaultVal : Option Json
  choices : Option (List String)
deriving Repr

/-- The `--base-url` declaration shared by the seven argparse scripts. -/
def baseUrlSpec : ArgSpec := ⟨"--base-url", some (.str defaultBaseUrl), none⟩

/-- Schema of `batch_send.py`. -/
def batchSendArgSpecs : List ArgSpec :=
  [⟨"json_file", none, none⟩, baseUrlSpec]

/-- Schema of `get_messages.py` (`--unread-only` is `store_true`, default
`False`). -/
def getMessagesArgSpecs : List ArgSpec :=
  [⟨"--limit", some (.num 10), none⟩, ⟨"--sender", some .null, none⟩,
   ⟨"--unread-only", some (.bool false), none⟩, baseUrlSpec]

/-- Schema of `get_unread.py`. -/
def getUnreadArgSpecs : List ArgSpec := [baseUrlSpec]

/-- Schema of `list_chats.py`. -/
def listChatsArgSpecs : List ArgSpec :=
  [⟨"--limit", some (.num 20), none⟩,
   ⟨"--type", some .null, some ["group", "direct"]⟩, baseUrlSpec]

/-- Schema of `send_file.py`. -/
def sendFileArgSpecs : List ArgSpec :=
  [⟨"recipient", none, none⟩, ⟨"file_path", none, none⟩,
   ⟨"--text", some .null, none⟩, baseUrlSpec]

/-- Schema of `send_message.py`. -/
def sendMessageArgSpecs : List ArgSpec :=
  [⟨"recipient", none, none⟩, ⟨"message", none, none⟩,
   ⟨"--files", some .null, none⟩, baseUrlSpec]

/-- Schema of `watcher.py`. -/
def watcherArgSpecs : List ArgSpec :=
  [⟨"action", none, some ["start", "stop", "status"]⟩,
   ⟨"--webhook-url", some .null, none⟩, baseUrlSpec]

/-- Schema of `simple_test.py`: no parser. -/
def simpleTestArgSpecs : List ArgSpec := []

/-- Schema of `watch_messages.py`: no parser. -/
def watchMessagesArgSpecs : List ArgSpec := []

/-- The nine commands with their schemas. -/
def allCommandArgSpecs : List (String × List ArgSpec) :=
  [("batch_send", batchSendArgSpecs), ("get_messages", getMessagesArgSpecs),
   ("get_unread", getUnreadArgSpecs), ("list_chats", listChatsArgSpecs),
   ("send_file", sendFileArgSpecs), ("send_message", sendMessageArgSpecs),
   ("watcher", watcherArgSpecs), ("simple_test", simpleTestArgSpecs),
   ("watch_messages", watchMessagesArgSpecs)]

/-- Does this declaration declare `--base-url` with default
`http://localhost:3000`? -/
def isBaseUrlDefaultSpec : ArgSpec → Bool
  | ⟨"--base-url", some (.str u), _⟩ => u == "http://localhost:3000"
  | _ => false

/-- Does a schema accept `--base-url` defaulting to
`http://localhost:3000`? -/
def acceptsBaseUrlDefault (specs : List ArgSpec) : Bool :=
  specs.any isBaseUrlDefaultSpec

/-! ### Support lemmas for the claims -/

/-- Every printed envelope carrying `success = false` forces exit code 1. -/
def failImpliesExit1 (o : Outcome) : Prop :=
  ∀ e ∈ o.printed, e.getField "success" = some (.bool false) → o.exitCode = 1

theorem clientPhase_failImpliesExit1 (c : CtorArgs) (env : CallEnv) (call : ClientCall)
    (onOk : Json → Json) (onErr : PyExc → Json)
    (hOk : ∀ v, (onOk v).getField "success" = some (.bool true)) :
    failImpliesExit1 (clientPhase c env call onOk onErr) := by
  cases env with
  | ctorRaises e => exact fun _ _ _ => rfl
  | call r =>
    cases r with
    | ok v =>
      intro e he hf
      simp only [clientPhase, List.mem_singleton] at he
      subst he
      rw [hOk v] at hf
      simp at hf
    | exn e => exact fun _ _ _ => rfl

theorem batchSend_fie1 (p : Bool) (a : BatchSendArgs) (fc : FileRead) (env : CallEnv) :
    failImpliesExit1 (batchSendRun p a fc env) := by
  cases p with
  | false => exact fun _ _ _ => rfl
  | true =>
    show failImpliesExit1 (batchSendMain a fc env)
    cases fc with
    | notFound => exact fun _ _ _ => rfl
    | badJson m => exact fun _ _ _ => rfl
    | parsed j =>
      cases j with
      | arr msgs => exact clientPhase_failImpliesExit1 _ _ _ _ _ (fun v => rfl)
      | null => exact fun _ _ _ => rfl
      | bool b => exact fun _ _ _ => rfl
      | num n => exact fun _ _ _ => rfl
      | str s => exact fun _ _ _ => rfl
      | obj kvs => exact fun _ _ _ => rfl

theorem getMessages_fie1 (p : Bool) (a : GetMessagesArgs) (env : CallEnv) :
    failImpliesExit1 (getMessagesRun p a env) := by
  cases p with
  | false => exact fun _ _ _ => rfl
  | true => exact clientPhase_failImpliesExit1 _ _ _ _ _ (fun v => rfl)

theorem getUnread_fie1 (p : Bool) (a : GetUnreadArgs) (env : CallEnv) :
    failImpliesExit1 (getUnreadRun p a env) := by
  cases p with
  | false => exact fun _ _ _ => rfl
  | true => exact clientPhase_failImpliesExit1 _ _ _ _ _ (fun v => rfl)

theorem listChats_fie1 (p : Bool) (a : ListChatsArgs) (env : CallEnv) :
    failImpliesExit1 (listChatsRun p a env) := by
  cases p with
  | false => exact fun _ _ _ => rfl
  | true => exact clientPhase_failImpliesExit1 _ _ _ _ _ (fun v => rfl)

theorem sendFile_fie1 (p : Bool) (a : SendFileArgs) (fe : Bool) (env : CallEnv) :
    failImpliesExit1 (sendFileRun p a fe env) := by
  cases p with
  | false => exact fun _ _ _ => rfl
  | true =>
    show failImpliesExit1 (sendFileMain a fe env)
    cases fe with
    | false => exact fun _ _ _ => rfl
    | true => exact clientPhase_failImpliesExit1 _ _ _ _ _ (fun v => rfl)

theorem sendMessage_fie1 (p : Bool) (a : SendMessageArgs) (env : CallEnv) :
    failImpliesExit1 (sendMessageRun p a env) := by
  cases p with
  | false => exact fun _ _ _ => rfl
  | true => exact clientPhase_failImpliesExit1 _ _ _ _ _ (fun v => rfl)

theorem simpleTest_fie1 (p : Bool) (env : CallEnv) :
    failImpliesExit1 (simpleTestRun p env) := by
  cases p with
  | false => exact fun _ _ _ => rfl
  | true => exact clientPhase_failImpliesExit1 _ _ _ _ _ (fun v => rfl)

theorem watcher_fie1 (p : Bool) (a : WatcherArgs) (env : CallEnv) :
    failImpliesExit1 (watcherRun p a env) := by
  cases p with
  | false => exact fun _ _ _ => rfl
  | true =>
    show failImpliesExit1 (watcherMain a env)
    obtain ⟨act, w, u⟩ := a
    cases act with
    | start => exact clientPhase_failImpliesExit1 _ _ _ _ _ (fun v => rfl)
    | stop => exact clientPhase_failImpliesExit1 _ _ _ _ _ (fun v => rfl)
    | status => exact clientPhase_failImpliesExit1 _ _ _ _ _ (fun v => rfl)

theorem watchMessages_fie1 (p : Bool) (env : WatchEnv) :
    failImpliesExit1 (watchMessagesRun p env) := by
  cases p with
  | false => exact fun _ _ _ => rfl
  | true =>
    show failImpliesExit1 (watchMessagesMain env)
    cases env with
    | ctorRaises e => exact fun _ _ _ => rfl
    | startRaises e => exact fun _ _ _ => rfl
    | running events theEnd =>
      cases theEnd with
      | exn e => exact fun _ _ _ => rfl
      | interrupt =>
        intro e he hf
        simp only [watchMessagesMain, List.mem_append, List.mem_cons,
          List.mem_singleton, List.mem_map] at he
        rcases he with (rfl | ⟨m, _, rfl⟩) | (rfl | h)
        · rw [show startingEnvelope.getField "success" = some (.bool true) from rfl] at hf
          simp at hf
        · rw [show (eventEnvelope m).getField "success" = none from rfl] at hf
          simp at hf
        · rw [show watcherStoppedEnvelope.getField "success" = some (.bool true) from rfl] at hf
          simp at hf
        · cases h

/-! ### The claims -/

/-- C1: for every script and every execution path, whenever an envelope
with `success = false` is printed the process exits with code 1; and in
the legacy watch loop (`watch_messages.py`) an interrupt signal causes an
envelope with `success = true` to be printed and the process to exit with
code 0. -/
theorem claim_C1 :
    (∀ p a fc env, failImpliesExit1 (batchSendRun p a fc env)) ∧
    (∀ p a env, failImpliesExit1 (getMessagesRun p a env)) ∧
    (∀ p a env, failImpliesExit1 (getUnreadRun p a env)) ∧
    (∀ p a env, failImpliesExit1 (listChatsRun p a env)) ∧
    (∀ p a fe env, failImpliesExit1 (sendFileRun p a fe env)) ∧
    (∀ p a env, failImpliesExit1 (sendMessageRun p a env)) ∧
    (∀ p env, failImpliesExit1 (simpleTestRun p env)) ∧
    (∀ p a env, failImpliesExit1 (watcherRun p a env)) ∧
    (∀ p env, failImpliesExit1 (watchMessagesRun p env)) ∧
    (∀ events,
      (watchMessagesRun true (.running events .interrupt)).exitCode = 0 ∧
      watcherStoppedEnvelope ∈ (watchMessagesRun true (.running events .interrupt)).printed ∧
      watcherStoppedEnvelope.getField "success" = some (.bool true)) := by
  refine ⟨batchSend_fie1, getMessages_fie1, getUnread_fie1, listChats_fie1,
    sendFile_fie1, sendMessage_fie1, simpleTest_fie1, watcher_fie1,
    watchMessages_fie1, fun events => ⟨rfl, ?_, rfl⟩⟩
  show watcherStoppedEnvelope ∈
    startingEnvelope :: List.map eventEnvelope events ++ [watcherStoppedEnvelope]
  simp

/-- Witness for C1 at concrete inputs: a printed `success = false`
envelope (batch file missing) does come with exit code 1. -/
theorem claim_C1_witness :
    (batchSendRun true ⟨"msgs.json", defaultBaseUrl⟩ .notFound (.call (.ok .null))).exitCode = 1 :=
  claim_C1.1 true ⟨"msgs.json", defaultBaseUrl⟩ .notFound (.call (.ok .null))
    (failEnvelope ("File not found: " ++ "msgs.json")) (by simp [batchSendRun, withPkg, batchSendMain]) rfl

/-- C2 as frozen is false: `simple_test.py` (and `watch_messages.py`)
build no argument parser, so not every one of the nine commands accepts
`--base-url`. -/
theorem claim_C2_counterexample :
    (allCommandArgSpecs.all fun c => acceptsBaseUrlDefault c.2) = false ∧
    acceptsBaseUrlDefault simpleTestArgSpecs = false ∧
    acceptsBaseUrlDefault watchMessagesArgSpecs = false := by
  refine ⟨?_, rfl, rfl⟩
  decide

/-- C2 amended: the seven argparse-based commands accept `--base-url`
defaulting to `http://localhost:3000` and construct the client against the
parsed value (with `timeout=30`); `watch_messages.py` accepts no flags and
hardcodes that URL (no timeout); `simple_test.py` accepts no flags and
constructs the client with no arguments at all. -/
theorem claim_C2_amended :
    acceptsBaseUrlDefault batchSendArgSpecs = true ∧
    acceptsBaseUrlDefault getMessagesArgSpecs = true ∧
    acceptsBaseUrlDefault getUnreadArgSpecs = true ∧
    acceptsBaseUrlDefault listChatsArgSpecs = true ∧
    acceptsBaseUrlDefault sendFileArgSpecs = true ∧
    acceptsBaseUrlDefault sendMessageArgSpecs = true ∧
    acceptsBaseUrlDefault watcherArgSpecs = true ∧
    acceptsBaseUrlDefault simpleTestArgSpecs = false ∧
    acceptsBaseUrlDefault watchMessagesArgSpecs = false ∧
    (∀ a msgs r, (batchSendRun true a (.parsed (.arr msgs)) (.call r)).ctor
      = some ⟨some a.baseUrl, some 30⟩) ∧
    (∀ a r, (getMessagesRun true a (.call r)).ctor = some ⟨some a.baseUrl, some 30⟩) ∧
    (∀ a r, (getUnreadRun true a (.call r)).ctor = some ⟨some a.baseUrl, some 30⟩) ∧
    (∀ a r, (listChatsRun true a (.call r)).ctor = some ⟨some a.baseUrl, some 30⟩) ∧
    (∀ a r, (sendFileRun true a true (.call r)).ctor = some ⟨some a.baseUrl, some 30⟩) ∧
    (∀ a r, (sendMessageRun true a (.call r)).ctor = some ⟨some a.baseUrl, some 30⟩) ∧
    (∀ a r, (watcherRun true a (.call r)).ctor = some ⟨some a.baseUrl, some 30⟩) ∧
    (∀ r, (simpleTestRun true (.call r)).ctor = some ⟨none, none⟩) ∧
    (∀ ev ed, (watchMessagesRun true (.running ev ed)).ctor
      = some ⟨some defaultBaseUrl, none⟩) := by
  refine ⟨rfl, rfl, rfl, rfl, rfl, rfl, rfl, rfl, rfl,
    fun a msgs r => ?_, fun a r => ?_, fun a r => ?_, fun a r => ?_,
    fun a r => ?_, fun a r => ?_, fun a r => ?_, fun r => ?_, fun ev ed => ?_⟩
  · cases r <;> rfl
  · cases r <;> rfl
  · cases r <;> rfl
  · cases r <;> rfl
  · cases r <;> rfl
  · cases r <;> rfl
  · obtain ⟨act, w, u⟩ := a
    cases act <;> cases r <;> rfl
  · cases r <;> rfl
  · cases ed <;> rfl

/-- C3 as frozen is false: `watch_messages.py` catches a connection-class
failure only through `except Exception` and prints `str(e)` verbatim, so
for the exception message `"boom"` the printed error string does not
contain the configured (hardcoded) base URL `http://localhost:3000`. -/
theorem claim_C3_counterexample :
    (watchMessagesRun true (.startRaises (.conn "boom"))).printed
      = [startingEnvelope, failEnvelope "boom"] ∧
    (watchMessagesRun true (.startRaises (.conn "boom"))).exitCode = 1 ∧
    strContains "boom" defaultBaseUrl = false := by
  refine ⟨rfl, rfl, ?_⟩
  decide

/-- C3 amended: the seven argparse-based commands report a connection
failure as `Connection error: {msg}. Make sure the API server is running
on {base-url}`, which contains the configured base URL, whether the
exception comes from client construction or from the delegated call;
`simple_test.py` and `watch_messages.py` catch it generically and print
only `str(e)`, which need not contain any base URL. -/
theorem claim_C3_amended :
    (∀ m u, strContains (connErrMsg m u) u = true) ∧
    (∀ a msgs m,
      (batchSendRun true a (.parsed (.arr msgs)) (.ctorRaises (.conn m))).printed
        = [failEnvelope (connErrMsg m a.baseUrl)] ∧
      (batchSendRun true a (.parsed (.arr msgs)) (.call (.exn (.conn m)))).printed
        = [failEnvelope (connErrMsg m a.baseUrl)]) ∧
    (∀ a m,
      (getMessagesRun true a (.ctorRaises (.conn m))).printed
        = [failEnvelope (connErrMsg m a.baseUrl)] ∧
      (getMessagesRun true a (.call (.exn (.conn m)))).printed
        = [failEnvelope (connErrMsg m a.baseUrl)]) ∧
    (∀ a m,
      (getUnreadRun true a (.ctorRaises (.conn m))).printed
        = [failEnvelope (connErrMsg m a.baseUrl)] ∧
      (getUnreadRun true a (.call (.exn (.conn m)))).printed
        = [failEnvelope (connErrMsg m a.baseUrl)]) ∧
    (∀ a m,
      (listChatsRun true a (.ctorRaises (.conn m))).printed
        = [failEnvelope (connErrMsg m a.baseUrl)] ∧
      (listChatsRun true a (.call (.exn (.conn m)))).printed
        = [failEnvelope (connErrMsg m a.baseUrl)]) ∧
    (∀ a m,
      (sendFileRun true a true (.ctorRaises (.conn m))).printed
        = [failEnvelope (connErrMsg m a.baseUrl)] ∧
      (sendFileRun true a true (.call (.exn (.conn m)))).printed
        = [failEnvelope (connErrMsg m a.baseUrl)]) ∧
    (∀ a m,
      (sendMessageRun true a (.ctorRaises (.conn m))).printed
        = [failEnvelope (connErrMsg m a.baseUrl)] ∧
      (sendMessageRun true a (.call (.exn (.conn m)))).printed
        = [failEnvelope (connErrMsg m a.baseUrl)]) ∧
    (∀ a m,
      (watcherRun true a (.ctorRaises (.conn m))).printed
        = [failEnvelope (connErrMsg m a.baseUrl)] ∧
      (watcherRun true a (.call (.exn (.conn m)))).printed
        = [failEnvelope (connErrMsg m a.baseUrl)]) ∧
    (∀ m, (simpleTestRun true (.call (.exn (.conn m)))).printed = [failEnvelope m]) ∧
    (∀ m, (watchMessagesRun true (.running [] (.exn (.conn m)))).printed
      = [startingEnvelope, failEnvelope m]) := by
  refine ⟨fun m u => strContains_append_right _ u,
    fun a msgs m => ⟨rfl, rfl⟩, fun a m => ⟨rfl, rfl⟩, fun a m => ⟨rfl, rfl⟩,
    fun a m => ⟨rfl, rfl⟩, fun a m => ⟨rfl, rfl⟩, fun a m => ⟨rfl, rfl⟩,
    fun a m => ?_, fun m => rfl, fun m => rfl⟩
  obtain ⟨act, w, u⟩ := a
  cases act <;> exact ⟨rfl, rfl⟩

/-- C4: `send_file.py` with a nonexistent `file_path` prints a failure
envelope whose error string contains that path and exits with code 1,
before the client object is ever constructed (no construction record, no
client calls), for every argument vector and environment. -/
theorem claim_C4 (a : SendFileArgs) (env : CallEnv) :
    sendFileRun true a false env
      = ⟨[failEnvelope ("File not found: " ++ a.filePath)], 1, none, []⟩ ∧
    strContains ("File not found: " ++ a.filePath) a.filePath = true :=
  ⟨rfl, strContains_append_right _ _⟩

/-- C5: `batch_send.py` on a file whose contents parse as JSON but not as
a JSON array prints a failure envelope with a descriptive error and exits
with code 1, without constructing the client or calling `send_batch`. -/
theorem claim_C5 (a : BatchSendArgs) (env : CallEnv) (j : Json)
    (h : j.isList = false) :
    batchSendRun true a (.parsed j) env
      = ⟨[failEnvelope "JSON file must contain an array of messages"], 1, none, []⟩ := by
  cases j with
  | arr xs => exact absurd h (by simp [Json.isList])
  | null => rfl
  | bool b => rfl
  | num n => rfl
  | str s => rfl
  | obj kvs => rfl

/-- Witness for C5: a JSON object input is rejected without any client
activity. -/
theorem claim_C5_witness :
    (Json.obj []).isList = false ∧
    batchSendRun true ⟨"msgs.json", defaultBaseUrl⟩ (.parsed (.obj [])) (.call (.ok .null))
      = ⟨[failEnvelope "JSON file must contain an array of messages"], 1, none, []⟩ :=
  ⟨rfl, claim_C5 ⟨"msgs.json", defaultBaseUrl⟩ (.call (.ok .null)) (.obj []) rfl⟩

/-- C6: `batch_send.py` on a JSON array of N message objects with a
successful `send_batch` prints a success envelope whose `message` field
contains the count N and whose `results` field is an array. -/
theorem claim_C6 (a : BatchSendArgs) (msgs : List Json) (v : Json) :
    (batchSendRun true a (.parsed (.arr msgs)) (.call (.ok v))).printed
      = [Json.obj [("success", .bool true),
          ("message", .str ("Sent " ++ toString msgs.length ++ " messages")),
          ("results", if v.isList then v else .arr [])]] ∧
    (batchSendRun true a (.parsed (.arr msgs)) (.call (.ok v))).exitCode = 0 ∧
    strContains ("Sent " ++ toString msgs.length ++ " messages")
      (toString msgs.length) = true ∧
    (∃ xs, (if v.isList then v else Json.arr []) = Json.arr xs) := by
  refine ⟨rfl, rfl, strContains_append_mid _ _ _, ?_⟩
  cases v with
  | arr xs => exact ⟨xs, rfl⟩
  | null => exact ⟨[], rfl⟩
  | bool b => exact ⟨[], rfl⟩
  | num n => exact ⟨[], rfl⟩
  | str s => exact ⟨[], rfl⟩
  | obj kvs => exact ⟨[], rfl⟩

/-- C7: for every script, a failed import of the external `agenttext`
package yields the specific guard envelope (naming the AgentText package)
and exit code 1, independently of all arguments and environment — the
outcome is a constant, so it precedes argument parsing and any client
activity. -/
theorem claim_C7 :
    (∀ a fc env, batchSendRun false a fc env = pkgFailOutcome pkgMissingStd) ∧
    (∀ a env, getMessagesRun false a env = pkgFailOutcome pkgMissingStd) ∧
    (∀ a env, getUnreadRun false a env = pkgFailOutcome pkgMissingStd) ∧
    (∀ a env, listChatsRun false a env = pkgFailOutcome pkgMissingStd) ∧
    (∀ a fe env, sendFileRun false a fe env = pkgFailOutcome pkgMissingStd) ∧
    (∀ a env, sendMessageRun false a env = pkgFailOutcome pkgMissingStd) ∧
    (∀ env, simpleTestRun false env = pkgFailOutcome pkgMissingStd) ∧
    (∀ a env, watcherRun false a env = pkgFailOutcome pkgMissingStd) ∧
    (∀ env, watchMessagesRun false env = pkgFailOutcome pkgMissingWatch) ∧
    strContains pkgMissingStd "AgentText" = true ∧
    strContains pkgMissingWatch "AgentText" = true ∧
    (pkgFailOutcome pkgMissingStd).exitCode = 1 ∧
    (pkgFailOutcome pkgMissingWatch).exitCode = 1 ∧
    (pkgFailOutcome pkgMissingStd).ctor = none ∧
    (pkgFailOutcome pkgMissingStd).calls = [] ∧
    (failEnvelope pkgMissingStd).getField "success" = some (.bool false) ∧
    (failEnvelope pkgMissingWatch).getField "success" = some (.bool false) := by
  refine ⟨fun a fc env => rfl, fun a env => rfl, fun a env => rfl, fun a env => rfl,
    fun a fe env => rfl, fun a env => rfl, fun env => rfl, fun a env => rfl,
    fun env => rfl, ?_, ?_, rfl, rfl, rfl, rfl, rfl, rfl⟩
  · decide
  · decide

/-- C8 as frozen is false: the `status` action passes a non-dict client
result through `str(...)`, so for the returned empty list the printed
`status` field is the string `"[]"`, not the returned value itself. -/
theorem claim_C8_counterexample :
    (watcherRun true ⟨.status, none, defaultBaseUrl⟩ (.call (.ok (.arr [])))).printed
      = [Json.obj [("success", .bool true), ("action", .str "status"),
          ("status", .str "[]")]] ∧
    Json.str "[]" ≠ Json.arr [] :=
  ⟨rfl, fun h => Json.noConfusion h⟩

/-- C8 amended: the `status` action on a successful `watcher.status()`
prints `success = true` with a `status` field equal to the returned value
when that value is a dict, and equal to its string rendering otherwise. -/
theorem claim_C8_amended (w : Option String) (u : String) (v : Json) :
    watcherRun true ⟨.status, w, u⟩ (.call (.ok v))
      = ⟨[Json.obj [("success", .bool true), ("action", .str "status"),
           ("status", if v.isDict then v else .str v.pyStr)]], 0,
         some ⟨some u, some 30⟩, [.watcherStatus]⟩ :=
  rfl

/-- C9: `send_message.py` takes the attachment branch only for a
non-empty `--files` value: `None` and the empty string both lead to the
plain `send`; a non-empty value is split on commas with each piece
whitespace-stripped before being forwarded to `send_files`. -/
theorem claim_C9 :
    (∀ r m u res, (sendMessageRun true ⟨r, m, none, u⟩ (.call res)).calls
      = [.send r m]) ∧
    (∀ r m u res, (sendMessageRun true ⟨r, m, some "", u⟩ (.call res)).calls
      = [.send r m]) ∧
    (∀ r m u s res, s.isEmpty = false →
      (sendMessageRun true ⟨r, m, some s, u⟩ (.call res)).calls
        = [.sendFiles r (splitAndStrip s) m]) := by
  refine ⟨fun r m u res => ?_, fun r m u res => ?_, fun r m u s res h => ?_⟩
  · cases res <;> rfl
  · cases res <;> rfl
  · cases res <;>
      simp [sendMessageRun, withPkg, sendMessageMain, pyTruthy, h, clientPhase]

/-- Witness for C9 at a concrete non-empty `--files` value: `"a, b"` is
split and stripped to `["a", "b"]`. -/
theorem claim_C9_witness :
    ("a, b".isEmpty = false) ∧
    (sendMessageRun true ⟨"+15551234567", "hi", some "a, b", defaultBaseUrl⟩
        (.call (.ok .null))).calls
      = [.sendFiles "+15551234567" ["a", "b"] "hi"] := by
  refine ⟨rfl, ?_⟩
  have h := claim_C9.2.2 "+15551234567" "hi" defaultBaseUrl "a, b" (.ok .null) rfl
  rw [h, show splitAndStrip "a, b" = ["a", "b"] from rfl]

/-- C10: in `get_messages.py` and `list_chats.py` the printed `count`
equals the length of the client return value when it is a list and 0
otherwise; `list_chats.py` additionally replaces a non-list response by an
empty array in the `chats` field (while `get_messages.py` keeps a dict
response in `messages`). -/
theorem claim_C10 :
    (∀ a xs, (getMessagesRun true a (.call (.ok (.arr xs)))).printed
      = [Json.obj [("success", .bool true), ("messages", .arr xs),
          ("count", .num xs.length)]]) ∧
    (∀ a v, v.isList = false →
      (getMessagesRun true a (.call (.ok v))).printed
        = [Json.obj [("success", .bool true),
            ("messages", if v.isDict then v else .arr []),
            ("count", .num 0)]]) ∧
    (∀ a xs, (listChatsRun true a (.call (.ok (.arr xs)))).printed
      = [Json.obj [("success", .bool true), ("chats", .arr xs),
          ("count", .num xs.length)]]) ∧
    (∀ a v, v.isList = false →
      (listChatsRun true a (.call (.ok v))).printed
        = [Json.obj [("success", .bool true), ("chats", .arr []),
            ("count", .num 0)]]) := by
  refine ⟨fun a xs => rfl, fun a v h => ?_, fun a xs => rfl, fun a v h => ?_⟩
  · cases v with
    | arr xs => exact absurd h (by simp [Json.isList])
    | null => rfl
    | bool b => rfl
    | num n => rfl
    | str s => rfl
    | obj kvs => rfl
  · cases v with
    | arr xs => exact absurd h (by simp [Json.isList])
    | null => rfl
    | bool b => rfl
    | num n => rfl
    | str s => rfl
    | obj kvs => rfl

/-- Witness for C10 at a concrete non-list response: a dict is kept in
`messages` with count 0, and replaced by `[]` in `chats`. -/
theorem claim_C10_witness :
    (Json.obj [("x", .num 1)]).isList = false ∧
    (getMessagesRun true ⟨10, none, false, defaultBaseUrl⟩
        (.call (.ok (.obj [("x", .num 1)])))).printed
      = [Json.obj [("success", .bool true),
          ("messages", .obj [("x", .num 1)]), ("count", .num 0)]] ∧
    (listChatsRun true ⟨20, none, defaultBaseUrl⟩
        (.call (.ok (.obj [("x", .num 1)])))).printed
      = [Json.obj [("success", .bool true), ("chats", .arr []),
          ("count", .num 0)]] :=
  ⟨rfl,
   claim_C10.2.1 ⟨10, none, false, defaultBaseUrl⟩ (.obj [("x", .num 1)]) rfl,
   claim_C10.2.2.2 ⟨20, none, defaultBaseUrl⟩ (.obj [("x", .num 1)]) rfl⟩

end AgentTextScripts
